import Mathlib

/-!
Shallow embedding of the `dealroom/firestore-connector` repository
(files `dealroom_firestore_connector/__init__.py`, `batch.py`, `helpers.py`)
and proofs about it.

Remote calls into the external Firestore client are modelled by explicit
outcome parameters (`Outcome`): each attempt of a wrapped call either
succeeds with a value or raises, exactly as the Python `try`/`except`
blocks observe it.  Side effects that the spec talks about (log lines
written via `logging.error` / `error_logger`, calls to `time.sleep`) are
recorded in the returned trace.
-/

namespace FirestoreConnector

/-- Modelled from the spec: the module `status_codes.py` is imported by
`__init__.py` and the tests but is not part of the given sources.  The
docstrings in `__init__.py` document `0` for success and `-1` for error,
`collection_exists` compares against `-1`, and the tests assert that the
create/update results of `set_history_doc_refs` equal `SUCCESS`; the spec
says all results collapse to the two integer sentinels. -/
def ERROR : Int := -1

/-- Modelled from the spec: success sentinel, see `ERROR`. -/
def SUCCESS : Int := 0

/-- Modelled from the spec: status code returned by `set_history_doc_refs`
when a new document is created; the tests equate it with `SUCCESS`. -/
def CREATED : Int := 0

/-- Modelled from the spec: status code returned by `set_history_doc_refs`
when an existing document is updated; the tests equate it with `SUCCESS`. -/
def UPDATED : Int := 0

/-- Outcome of one attempt of a remote call: the Python `try` body either
returns a value or raises some exception. -/
inductive Outcome (α : Type) where
  | ok : α → Outcome α
  | fail : Outcome α
deriving DecidableEq

/-- One error line written by `__log_exception` (`__init__.py`, lines
429-447): `logging.error` with "Retrying..." when `was_retried` is false,
`error_logger` (helpers.py) when `was_retried` is true. -/
structure LogLine where
  errorCode : Nat
  retried : Bool
deriving DecidableEq

/-- Observable trace of one facade call: its returned value, the error
lines logged, the number of `sleep(EXCEPTION_SLEEP_TIME)` calls, and the
number of attempts made against the underlying client. -/
structure CallTrace (β : Type) where
  result : β
  logs : List LogLine
  sleeps : Nat
  attempts : Nat
deriving DecidableEq

/-- Embedding of `new_connection` (`__init__.py`, lines 22-37): one call to
`firestore.Client...` with no sleep and no second attempt.  The except
block calls `__log_exception(5, credentials_path, identifier, True)`, and
the code-5 message there evaluates `ref.path` on `credentials_path`,
which is a plain `str` or `None`: the handler itself raises
`AttributeError` while building the message, before `error_logger` runs.
So on any connection failure nothing is logged, `ERROR` is never
returned, and the `AttributeError` escapes to the caller (modelled as
`.error "AttributeError"`). -/
def new_connection (a1 : Outcome α) : CallTrace (Except String (α ⊕ Int)) :=
  match a1 with
  | .ok c => ⟨.ok (.inl c), [], 0, 1⟩
  | .fail => ⟨.error "AttributeError", [], 0, 1⟩

/-- Embedding of `get` (`__init__.py`, lines 40-61): try `doc_ref.get`; on
exception log (code 3), sleep, retry once; on a second exception log with
the retried marker and return `ERROR`. -/
def fs_get (a1 a2 : Outcome α) : CallTrace (α ⊕ Int) :=
  match a1 with
  | .ok v => ⟨.inl v, [], 0, 1⟩
  | .fail =>
    match a2 with
    | .ok v => ⟨.inl v, [⟨3, false⟩], 1, 2⟩
    | .fail => ⟨.inr ERROR, [⟨3, false⟩, ⟨3, true⟩], 1, 2⟩

/-- Embedding of `set` (`__init__.py`, lines 75-104): try
`doc_ref.set(..., merge=True)` followed by `_update_last_edit`, returning
`SUCCESS`; on exception log (code 4), sleep, retry once; on a second
exception log with the retried marker and return `ERROR`.  One `Outcome`
covers the whole `try` body. -/
def fs_set (a1 a2 : Outcome Unit) : CallTrace Int :=
  match a1 with
  | .ok _ => ⟨SUCCESS, [], 0, 1⟩
  | .fail =>
    match a2 with
    | .ok _ => ⟨SUCCESS, [⟨4, false⟩], 1, 2⟩
    | .fail => ⟨ERROR, [⟨4, false⟩, ⟨4, true⟩], 1, 2⟩

/-- Embedding of `update` (`__init__.py`, lines 107-132): same two-attempt
shape as `set`, error code 2. -/
def fs_update (a1 a2 : Outcome Unit) : CallTrace Int :=
  match a1 with
  | .ok _ => ⟨SUCCESS, [], 0, 1⟩
  | .fail =>
    match a2 with
    | .ok _ => ⟨SUCCESS, [⟨2, false⟩], 1, 2⟩
    | .fail => ⟨ERROR, [⟨2, false⟩, ⟨2, true⟩], 1, 2⟩

/-- Embedding of `stream` (`__init__.py`, lines 135-156): same two-attempt
shape as `get`, error code 1, returning the stream object on success. -/
def fs_stream (a1 a2 : Outcome α) : CallTrace (α ⊕ Int) :=
  match a1 with
  | .ok v => ⟨.inl v, [], 0, 1⟩
  | .fail =>
    match a2 with
    | .ok v => ⟨.inl v, [⟨1, false⟩], 1, 2⟩
    | .fail => ⟨.inr ERROR, [⟨1, false⟩, ⟨1, true⟩], 1, 2⟩

/-- Reference to a Firestore document, identified by its id. -/
structure DocRef where
  id : Nat
deriving DecidableEq

instance : Inhabited DocRef := ⟨⟨0⟩⟩

/-- Value of a document or payload field, as the Python code manipulates
them: strings or integers. -/
inductive FieldValue where
  | str : String → FieldValue
  | int : Int → FieldValue
deriving DecidableEq

/-- Payload or document data: a Python dict from field names to values,
as an association list without duplicate keys. -/
abbrev Payload : Type := List (String × FieldValue)

/-- One write operation accumulated by a `Batcher` (`batch.py`): the four
decorated methods `set` (which forces `merge=True`), `create`, `update`
and `delete`. -/
inductive BatchOp where
  | setOp : DocRef → Payload → BatchOp
  | createOp : DocRef → Payload → BatchOp
  | updateOp : DocRef → Payload → BatchOp
  | deleteOp : DocRef → BatchOp
deriving DecidableEq

/-- State of a `Batcher` (`batch.py`, class `Batcher`): the private write
counter `__total_writes` and the write operations accumulated in the
underlying `firestore.WriteBatch`. -/
structure Batcher where
  total_writes : Nat
  ops : List BatchOp
deriving DecidableEq

/-- The per-batch write limit `Batcher.MAX_WRITES_PER_BATCH` (`batch.py`,
line 20). -/
def MAX_WRITES_PER_BATCH : Nat := 500

/-- Result of one decorated write call: the batcher state afterwards and
whether the call raised `InvalidArgument` (`batch.py`, lines 38-46).  The
decorator `__count_write` increments the counter first, then raises when
the counter exceeds the limit, before forwarding to the parent class. -/
structure WriteResult where
  state : Batcher
  raised : Bool
deriving DecidableEq

/-- Embedding of the `__count_write` wrapper applied to a write method
(`batch.py`, lines 31-48): increment `__total_writes`; if it now exceeds
`MAX_WRITES_PER_BATCH`, raise `InvalidArgument` without forwarding the
write; otherwise forward the operation to the underlying batch. -/
def Batcher.doWrite (b : Batcher) (op : BatchOp) : WriteResult :=
  if b.total_writes + 1 > MAX_WRITES_PER_BATCH then
    ⟨{ b with total_writes := b.total_writes + 1 }, true⟩
  else ⟨{ total_writes := b.total_writes + 1, ops := b.ops ++ [op] }, false⟩

/-- A fresh `Batcher` (`batch.py`, `__init__`): zero writes counted, empty
underlying batch. -/
def Batcher.init : Batcher := ⟨0, []⟩

/-- The decorated `Batcher.set` (`batch.py`, lines 50-58): forces
`merge=True` and forwards through `__count_write`. -/
def Batcher.set (b : Batcher) (r : DocRef) (data : Payload) : WriteResult :=
  b.doWrite (.setOp r data)

/-- The decorated `Batcher.create` (`batch.py`, lines 60-63). -/
def Batcher.create (b : Batcher) (r : DocRef) (data : Payload) : WriteResult :=
  b.doWrite (.createOp r data)

/-- The decorated `Batcher.update` (`batch.py`, lines 70-73). -/
def Batcher.update (b : Batcher) (r : DocRef) (data : Payload) : WriteResult :=
  b.doWrite (.updateOp r data)

/-- The decorated `Batcher.delete` (`batch.py`, lines 65-68). -/
def Batcher.delete (b : Batcher) (r : DocRef) : WriteResult :=
  b.doWrite (.deleteOp r)

/-- Runs a list of write calls against a batcher, returning the final
state and the raised-flag of each call in order. -/
def runWrites (b : Batcher) (l : List BatchOp) : Batcher × List Bool :=
  match l with
  | [] => (b, [])
  | op :: rest =>
    let r := runWrites (b.doWrite op).state rest
    (r.1, (b.doWrite op).raised :: r.2)

/-- A database visible to batched writes: documents stored by reference. -/
abbrev Db : Type := List (DocRef × Payload)

/-- Modelled from the spec: the external document database applies a
committed batch write.  A delete removes the document at the reference; a
set with merge upserts it; create adds it; update modifies it in place. -/
def applyBatchOp (db : Db) (op : BatchOp) : Db :=
  match op with
  | .deleteOp r => db.filter (fun e => !(e.1 == r))
  | .setOp r p =>
    if db.any (fun e => e.1 == r) then db.map (fun e => if e.1 == r then (r, p) else e)
    else db ++ [(r, p)]
  | .createOp r p => db ++ [(r, p)]
  | .updateOp r p => db.map (fun e => if e.1 == r then (r, p) else e)

/-- Result of `Batcher.commit`: the batcher state afterwards, the returned
status code, the number of attempts against the underlying commit, the
number of sleep calls made (there are none in `batch.py`), and the
database after the call. -/
structure CommitResult where
  state : Batcher
  status : Int
  attempts : Nat
  sleeps : Nat
  db : Db
deriving DecidableEq

/-- Embedding of `Batcher.commit` (`batch.py`, lines 75-90) with the
outcome of each underlying `super().commit()` attempt supplied as a list
of booleans.  On success the accumulated writes are applied to the
database, the underlying batch is cleared and the counter reset, and
`SUCCESS` is returned; on failure with `retry=True` it immediately calls
itself with `retry=False`; on failure with `retry=False` it returns
`ERROR`.  No sleep occurs anywhere on this path. -/
def Batcher.commitGo (b : Batcher) (db : Db) (retry : Bool) (outcomes : List Bool) :
    CommitResult :=
  match outcomes with
  | [] => ⟨b, ERROR, 0, 0, db⟩
  | a :: rest =>
    if a then ⟨{ b with total_writes := 0, ops := [] }, SUCCESS, 1, 0,
        b.ops.foldl applyBatchOp db⟩
    else if retry then
      let r := Batcher.commitGo b db false rest
      ⟨r.state, r.status, r.attempts + 1, r.sleeps, r.db⟩
    else ⟨b, ERROR, 1, 0, db⟩

/-- Entry point of `Batcher.commit`: the Python default is `retry=True`. -/
def Batcher.commit (b : Batcher) (db : Db) (outcomes : List Bool) : CommitResult :=
  Batcher.commitGo b db true outcomes

/-- The raised-flags that a run of `n` write calls starting at counter
value `tw` produces: call `i` is rejected exactly when the counter before
it is already at or above the limit. -/
def expectedFlags (tw : Nat) : Nat → List Bool
  | 0 => []
  | n + 1 => decide (MAX_WRITES_PER_BATCH ≤ tw) :: expectedFlags (tw + 1) n

/-- Environment of external collaborators: `extract` is the URL
normalizer from the external `dealroom_urlextract` package (not part of
this repository), returning the canonical url or raising (`none`). -/
structure Env where
  extract : String → Option String

/-- A document of the `history` collection, with the fields the repository
queries: `dealroom_id`, `final_url` and `current_related_urls` (a field
that is absent in the stored document is `none` and never matches an
equality query). -/
structure HistoryDoc where
  ref : DocRef
  dealroom_id : Option Int
  final_url : Option String
  current_related_urls : List String
deriving DecidableEq

/-- The dictionary returned by `get_history_doc_refs` (`__init__.py`,
lines 233-285): a key is present (`some`) exactly when the corresponding
query was issued. -/
structure HistoryRefs where
  dealroom_id : Option (List DocRef)
  final_url : Option (List DocRef)
  current_related_urls : Option (List DocRef)
deriving DecidableEq

/-- Python dict lookup `payload[k]` / `k in payload`. -/
def lookupField (p : Payload) (k : String) : Option FieldValue :=
  (p.find? (fun e => e.1 == k)).map (fun e => e.2)

/-- Python dict merge `{**a, **b}`: keys of `b` win. -/
def mergePayload (a b : Payload) : Payload :=
  a.filter (fun e => (lookupField b e.1).isNone) ++ b

/-- Decimal value of a digit list: `none` unless non-empty and all ASCII
digits. -/
def digitsVal (cs : List Char) : Option Nat :=
  if cs.isEmpty then none
  else if cs.all Char.isDigit then
    some (cs.foldl (fun acc c => acc * 10 + (c.toNat - 48)) 0)
  else none

/-- Python `int(str)`: an optional minus sign followed by decimal digits;
`none` when `int` would raise `ValueError`.  (Surrounding whitespace and
a leading plus sign, which Python also accepts, are not modelled; no
claim exercises them.) -/
def pyStrToInt (s : String) : Option Int :=
  match s.data with
  | [] => none
  | c :: rest =>
    if c = '-' then (digitsVal rest).map (fun n => -(n : Int))
    else (digitsVal (c :: rest)).map (fun n => (n : Int))

/-- Python `int(v)` on a payload value: the identity on integers, integer
parsing on strings. -/
def pyToInt : FieldValue → Option Int
  | .int n => some n
  | .str s => pyStrToInt s

/-- The sentinel `_DELETED_DEALROOM_ENTITY_ID` (`__init__.py`, line 289). -/
def _DELETED_DEALROOM_ENTITY_ID : Int := -2

/-- The sentinel `_NOT_IN_DEALROOM_ENTITY_ID` (`__init__.py`, line 291). -/
def _NOT_IN_DEALROOM_ENTITY_ID : Int := -1

/-- Embedding of `_validate_dealroomid` (`__init__.py`, lines 294-303):
true when `int(dealroom_id)` succeeds and the result is at least `-2`
(`raise ValueError` otherwise). -/
def _validate_dealroomid (v : FieldValue) : Bool :=
  match pyToInt v with
  | some n => decide (_DELETED_DEALROOM_ENTITY_ID ≤ n)
  | none => false

/-- Embedding of `_validate_final_url` (`__init__.py`, lines 306-316):
the empty string is valid; otherwise `extract` must not raise.  A
non-string value makes `extract` raise, which the bare except maps to
`ValueError`. -/
def _validate_final_url (env : Env) (v : FieldValue) : Bool :=
  match v with
  | .str s => s == "" || (env.extract s).isSome
  | .int _ => false

/-- Embedding of `_validate_new_history_doc_payload` (`__init__.py`,
lines 319-330): `final_url` and `dealroom_id` must both be present and
valid (`KeyError` / `ValueError` otherwise, collapsed to false here since
the caller catches both). -/
def _validate_new_history_doc_payload (env : Env) (p : Payload) : Bool :=
  match lookupField p "final_url" with
  | none => false
  | some fu =>
    _validate_final_url env fu &&
      match lookupField p "dealroom_id" with
      | none => false
      | some d => _validate_dealroomid d

/-- Embedding of `_validate_update_history_doc_payload` (`__init__.py`,
lines 333-340): each of `final_url` and `dealroom_id` is validated only
when present. -/
def _validate_update_history_doc_payload (env : Env) (p : Payload) : Bool :=
  (match lookupField p "final_url" with
    | none => true
    | some fu => _validate_final_url env fu) &&
  (match lookupField p "dealroom_id" with
    | none => true
    | some d => _validate_dealroomid d)

/-- Python `str.isnumeric` as used on the lookup key (ASCII digits). -/
def isnumeric (s : String) : Bool := !s.data.isEmpty && s.data.all Char.isDigit

/-- Embedding of `get_history_doc_refs` (`__init__.py`, lines 233-285)
over a pure view of the `history` collection (the `stream` calls are
modelled as succeeding; their remote-failure path is not reachable in
this pure model).  A numeric key queries `dealroom_id == int(key)`; any
other key is normalized by `extract` (error sentinel when it raises) and
queries `final_url == url` and `current_related_urls array_contains url`.
`isnumeric` guarantees that the parse of a numeric key succeeds, so the
`getD 0` default is never used. -/
def get_history_doc_refs (env : Env) (db : List HistoryDoc) (key : String) :
    Except Int HistoryRefs :=
  if isnumeric key then
    .ok ⟨some ((db.filter (fun d => d.dealroom_id == some ((pyStrToInt key).getD 0))).map
        (fun d => d.ref)), none, none⟩
  else
    match env.extract key with
    | none => .error ERROR
    | some website_url =>
      .ok ⟨none,
        some ((db.filter (fun d => d.final_url == some website_url)).map (fun d => d.ref)),
        some ((db.filter (fun d => d.current_related_urls.contains website_url)).map
          (fun d => d.ref))⟩

/-- The `history_refs` dictionary built at the start of
`set_history_doc_refs` (`__init__.py`, line 364): the lookup only runs
when `finalurl_or_dealroomid` is truthy (neither `None` nor the empty
string). -/
def lookupHistoryRefs (env : Env) (db : List HistoryDoc) (key : Option String) :
    Except Int HistoryRefs :=
  match key with
  | some k => if k = "" then .ok ⟨none, none, none⟩ else get_history_doc_refs env db k
  | none => .ok ⟨none, none, none⟩

/-- The `count_history_refs` / `key_found` chain of `set_history_doc_refs`
(`__init__.py`, lines 370-380): the `dealroom_id` key wins when present
(whatever its length), then a non-empty `final_url` list, then a
non-empty `current_related_urls` list; otherwise the count is zero.  The
returned list is the one indexed by `key_found`. -/
def selectRefs (r : HistoryRefs) : Nat × List DocRef :=
  match r.dealroom_id with
  | some l => (l.length, l)
  | none =>
    match r.final_url with
    | some l =>
      if 0 < l.length then (l.length, l)
      else
        match r.current_related_urls with
        | some m => if 0 < m.length then (m.length, m) else (0, [])
        | none => (0, [])
    | none =>
      match r.current_related_urls with
      | some m => if 0 < m.length then (m.length, m) else (0, [])
      | none => (0, [])

/-- Target of the final `set` call of `set_history_doc_refs`: a fresh
document obtained from `history_col.document()` or the single matched
existing document. -/
inductive WriteTarget where
  | newDoc : WriteTarget
  | existing : DocRef → WriteTarget
deriving DecidableEq

/-- Result of `set_history_doc_refs`: the returned status code and the
write that took effect (`none` when no write happened, because of a
validation error, duplicate matches, a lookup error, or a failed remote
`set`). -/
structure SetHistoryResult where
  status : Int
  write : Option (WriteTarget × Payload)
deriving DecidableEq

/-- The default values injected into a new history document
(`__init__.py`, lines 384-388). -/
def defaultNewPayload : Payload :=
  [("dealroom_id", FieldValue.int _NOT_IN_DEALROOM_ENTITY_ID),
   ("final_url", FieldValue.str "")]

/-- The final coercion of `set_history_doc_refs` (`__init__.py`, lines
414-416): `_payload["dealroom_id"] = int(_payload["dealroom_id"])` when
the key is present.  Both reachable paths have already validated the
value, so the parse cannot fail; the identity fallback is dead code. -/
def intifyDealroomId (p : Payload) : Payload :=
  match lookupField p "dealroom_id" with
  | none => p
  | some v =>
    match pyToInt v with
    | some n => p.map (fun e => if e.1 == "dealroom_id" then (e.1, FieldValue.int n) else e)
    | none => p

/-- Embedding of `set_history_doc_refs` (`__init__.py`, lines 343-426).
The outcome of the final remote `set` (which internally retries once) is
supplied as `writeOk`; on `writeOk = false` the function logs and returns
the error sentinel, and no write takes effect. -/
def set_history_doc_refs (env : Env) (db : List HistoryDoc) (payload : Payload)
    (finalurl_or_dealroomid : Option String) (writeOk : Bool) : SetHistoryResult :=
  match lookupHistoryRefs env db finalurl_or_dealroomid with
  | .error _ => ⟨ERROR, none⟩
  | .ok refs =>
    let cm := selectRefs refs
    if cm.1 = 0 then
      let p := mergePayload defaultNewPayload payload
      if _validate_new_history_doc_payload env p then
        if writeOk then ⟨CREATED, some (WriteTarget.newDoc, intifyDealroomId p)⟩
        else ⟨ERROR, none⟩
      else ⟨ERROR, none⟩
    else if cm.1 = 1 then
      if _validate_update_history_doc_payload env payload then
        if writeOk then
          ⟨UPDATED, some (WriteTarget.existing cm.2.headI, intifyDealroomId payload)⟩
        else ⟨ERROR, none⟩
      else ⟨ERROR, none⟩
    else ⟨ERROR, none⟩

/-- Modelled from the spec: the external database applies the successful
final `set(..., merge=True)` of the history upsert.  A `set` with merge
on a fresh reference creates that document; on an existing reference it
updates that document in place; no document is ever removed.  Returns the
document references present afterwards. -/
def historyRefsAfter (db : List HistoryDoc) (fresh : DocRef)
    (w : Option (WriteTarget × Payload)) : List DocRef :=
  match w with
  | none => db.map (fun d => d.ref)
  | some (.newDoc, _) => db.map (fun d => d.ref) ++ [fresh]
  | some (.existing _, _) => db.map (fun d => d.ref)

/-- A concrete extract function for witnesses: accepts exactly the two
canonical urls. -/
def extractA : String → Option String := fun s =>
  if s == "a.com" || s == "b.com" then some s else none

/-- A concrete environment for witnesses. -/
def envA : Env := ⟨extractA⟩

end FirestoreConnector

namespace FirestoreConnector

/-- Claim C2 counterexample: the claim says every one of connect, get, set,
update, stream sleeps on failure, attempts exactly once more, logs, and on
a second failure returns the sentinel; but `new_connection` with a failing
underlying call makes only one attempt, never sleeps, logs nothing (its
own logging helper crashes on `credentials_path.path`), and raises
`AttributeError` instead of returning the sentinel. -/
theorem c2_connect_no_retry :
    (new_connection (Outcome.fail : Outcome Unit)).attempts = 1 ∧
    (new_connection (Outcome.fail : Outcome Unit)).sleeps = 0 ∧
    (new_connection (Outcome.fail : Outcome Unit)).logs = [] ∧
    (new_connection (Outcome.fail : Outcome Unit)).result = .error "AttributeError" := by
  exact ⟨rfl, rfl, rfl, rfl⟩

/-- Claim C2 (amended): get, set, update and stream each attempt the
underlying call once; on failure they log one line, sleep once, and attempt
exactly once more; on a second failure they log with the retried marker and
return the error sentinel.  connect (`new_connection`) attempts only once
and does not sleep or retry: on failure its own logging helper crashes
(`AttributeError` from `credentials_path.path`), so nothing is logged and
the exception escapes to the caller instead of the error sentinel. -/
theorem c2_facade_retry_policy (α : Type) (a2 : Outcome α) (b2 : Outcome Unit) :
    ((fs_get (Outcome.fail) a2).sleeps = 1 ∧ (fs_get (Outcome.fail) a2).attempts = 2 ∧
      (a2 = Outcome.fail →
        (fs_get (Outcome.fail) a2).result = .inr ERROR ∧
        (fs_get (Outcome.fail) a2).logs = [⟨3, false⟩, ⟨3, true⟩])) ∧
    ((fs_stream (Outcome.fail) a2).sleeps = 1 ∧ (fs_stream (Outcome.fail) a2).attempts = 2 ∧
      (a2 = Outcome.fail →
        (fs_stream (Outcome.fail) a2).result = .inr ERROR ∧
        (fs_stream (Outcome.fail) a2).logs = [⟨1, false⟩, ⟨1, true⟩])) ∧
    ((fs_set (Outcome.fail) b2).sleeps = 1 ∧ (fs_set (Outcome.fail) b2).attempts = 2 ∧
      (b2 = Outcome.fail →
        (fs_set (Outcome.fail) b2).result = ERROR ∧
        (fs_set (Outcome.fail) b2).logs = [⟨4, false⟩, ⟨4, true⟩])) ∧
    ((fs_update (Outcome.fail) b2).sleeps = 1 ∧ (fs_update (Outcome.fail) b2).attempts = 2 ∧
      (b2 = Outcome.fail →
        (fs_update (Outcome.fail) b2).result = ERROR ∧
        (fs_update (Outcome.fail) b2).logs = [⟨2, false⟩, ⟨2, true⟩])) ∧
    ((new_connection (Outcome.fail : Outcome α)).attempts = 1 ∧
      (new_connection (Outcome.fail : Outcome α)).sleeps = 0 ∧
      (new_connection (Outcome.fail : Outcome α)).result = .error "AttributeError" ∧
      (new_connection (Outcome.fail : Outcome α)).logs = []) := by
  cases a2 <;> cases b2 <;>
    refine ⟨⟨rfl, rfl, ?_⟩, ⟨rfl, rfl, ?_⟩, ⟨rfl, rfl, ?_⟩, ⟨rfl, rfl, ?_⟩, rfl, rfl, rfl, rfl⟩ <;>
    intro h <;> first
      | exact ⟨rfl, rfl⟩
      | cases h

/-- Claim C2 (amended) witness at concrete outcomes. -/
theorem c2_facade_retry_policy_witness :
    (fs_get (α := Unit) (Outcome.fail) (Outcome.fail)).result = .inr ERROR ∧
    (fs_get (α := Unit) (Outcome.fail) (Outcome.fail)).logs = [⟨3, false⟩, ⟨3, true⟩] :=
  (c2_facade_retry_policy Unit Outcome.fail Outcome.fail).1.2.2 rfl

/-- Claim C3: each facade remote call (get, set, update, stream) whose
underlying operation fails on both attempts returns the error sentinel and
logs exactly two error lines, the first without and the second with the
retried marker. -/
theorem c3_double_failure_two_logs (α : Type) :
    ((fs_get (α := α) Outcome.fail Outcome.fail).result = .inr ERROR ∧
      (fs_get (α := α) Outcome.fail Outcome.fail).logs.length = 2) ∧
    ((fs_stream (α := α) Outcome.fail Outcome.fail).result = .inr ERROR ∧
      (fs_stream (α := α) Outcome.fail Outcome.fail).logs.length = 2) ∧
    ((fs_set Outcome.fail Outcome.fail).result = ERROR ∧
      (fs_set Outcome.fail Outcome.fail).logs.length = 2) ∧
    ((fs_update Outcome.fail Outcome.fail).result = ERROR ∧
      (fs_update Outcome.fail Outcome.fail).logs.length = 2) :=
  ⟨⟨rfl, rfl⟩, ⟨rfl, rfl⟩, ⟨rfl, rfl⟩, ⟨rfl, rfl⟩⟩

lemma doWrite_raised_eq (b : Batcher) (op : BatchOp) :
    (b.doWrite op).raised = decide (MAX_WRITES_PER_BATCH ≤ b.total_writes) := by
  simp only [Batcher.doWrite]
  split
  · next h => symm; rw [decide_eq_true_eq]; omega
  · next h => symm; rw [decide_eq_false_iff_not]; omega

lemma doWrite_total (b : Batcher) (op : BatchOp) :
    (b.doWrite op).state.total_writes = b.total_writes + 1 := by
  simp only [Batcher.doWrite]
  split <;> rfl

lemma doWrite_rejected (b : Batcher) (op : BatchOp)
    (h : MAX_WRITES_PER_BATCH ≤ b.total_writes) :
    b.doWrite op = ⟨{ b with total_writes := b.total_writes + 1 }, true⟩ := by
  simp only [Batcher.doWrite]
  rw [if_pos (by omega)]

lemma doWrite_accepted (b : Batcher) (op : BatchOp)
    (h : b.total_writes < MAX_WRITES_PER_BATCH) :
    b.doWrite op = ⟨⟨b.total_writes + 1, b.ops ++ [op]⟩, false⟩ := by
  simp only [Batcher.doWrite]
  rw [if_neg (by omega)]

lemma runWrites_spec (l : List BatchOp) : ∀ b : Batcher,
    (runWrites b l).2 = expectedFlags b.total_writes l.length ∧
    (runWrites b l).1.ops = b.ops ++ l.take (MAX_WRITES_PER_BATCH - b.total_writes) ∧
    (runWrites b l).1.total_writes = b.total_writes + l.length := by
  induction l with
  | nil => exact fun b => ⟨rfl, by simp [runWrites], rfl⟩
  | cons op rest ih =>
    intro b
    obtain ⟨ih1, ih2, ih3⟩ := ih (b.doWrite op).state
    have hr : (runWrites b (op :: rest)).2
        = (b.doWrite op).raised :: (runWrites (b.doWrite op).state rest).2 := rfl
    have hb : (runWrites b (op :: rest)).1 = (runWrites (b.doWrite op).state rest).1 := rfl
    refine ⟨?_, ?_, ?_⟩
    · rw [hr, ih1, doWrite_raised_eq, doWrite_total]
      simp only [List.length_cons, expectedFlags]
    · rw [hb, ih2, doWrite_total]
      by_cases h : MAX_WRITES_PER_BATCH ≤ b.total_writes
      · have hso : (b.doWrite op).state.ops = b.ops := by rw [doWrite_rejected b op h]
        rw [hso]
        have h0 : MAX_WRITES_PER_BATCH - b.total_writes = 0 := by omega
        have h1 : MAX_WRITES_PER_BATCH - (b.total_writes + 1) = 0 := by omega
        simp [h0, h1]
      · have hso : (b.doWrite op).state.ops = b.ops ++ [op] := by
          rw [doWrite_accepted b op (by omega)]
        rw [hso]
        have h1 : MAX_WRITES_PER_BATCH - b.total_writes =
            (MAX_WRITES_PER_BATCH - (b.total_writes + 1)) + 1 := by omega
        rw [h1, List.take_succ_cons]
        simp
    · rw [hb, ih3, doWrite_total]
      simp only [List.length_cons]
      omega

lemma expectedFlags_append (m : Nat) : ∀ (tw n : Nat),
    expectedFlags tw (m + n) = expectedFlags tw m ++ expectedFlags (tw + m) n := by
  induction m with
  | zero => intro tw n; simp [expectedFlags]
  | succ k ih =>
    intro tw n
    have e : k + 1 + n = (k + n) + 1 := by omega
    rw [e]
    simp only [expectedFlags]
    rw [ih (tw + 1) n]
    have e2 : tw + 1 + k = tw + (k + 1) := by omega
    rw [e2]
    simp [List.cons_append]

lemma expectedFlags_low : ∀ (tw n : Nat), tw + n ≤ MAX_WRITES_PER_BATCH →
    expectedFlags tw n = List.replicate n false := by
  intro tw n
  induction n generalizing tw with
  | zero => intro _; rfl
  | succ k ih =>
    intro h
    have hd : ¬ (MAX_WRITES_PER_BATCH ≤ tw) := by omega
    simp only [expectedFlags, List.replicate_succ]
    rw [ih (tw + 1) (by omega)]
    simp [hd]

/-- Claim C6: a `Batcher` accepts 500 accumulated writes; the 501st write
call is rejected (raises `InvalidArgument`) locally, before the write is
forwarded to the underlying batch: after 501 write calls starting from a
fresh batcher, the first 500 were accepted, the last was rejected, and the
underlying batch holds exactly the first 500 operations. -/
theorem c6_batch_limit (l : List BatchOp) (h : l.length = 501) :
    (runWrites Batcher.init l).2 = List.replicate 500 false ++ [true] ∧
    (runWrites Batcher.init l).1.ops = l.take 500 := by
  obtain ⟨h1, h2, -⟩ := runWrites_spec l Batcher.init
  constructor
  · rw [h1, h]
    show expectedFlags 0 501 = _
    have e : (501 : Nat) = 500 + 1 := rfl
    rw [e, expectedFlags_append 500 0 1, expectedFlags_low 0 500 (by decide)]
    congr 1
  · rw [h2]
    rfl

/-- Claim C6 witness: a concrete list of 501 write operations. -/
theorem c6_batch_limit_witness :
    (List.replicate 501 (BatchOp.deleteOp ⟨0⟩)).length = 501 ∧
    (runWrites Batcher.init (List.replicate 501 (BatchOp.deleteOp ⟨0⟩))).2 =
      List.replicate 500 false ++ [true] :=
  ⟨by rw [List.length_replicate], (c6_batch_limit _ (by rw [List.length_replicate])).1⟩

/-- Claim C7 counterexample: the claim says commit retries after a fixed
delay; but `Batcher.commit` with a failing first attempt retries with no
sleep at all. -/
theorem c7_commit_no_delay :
    (Batcher.init.commit [] [false, true]).attempts = 2 ∧
    (Batcher.init.commit [] [false, true]).sleeps = 0 :=
  ⟨rfl, rfl⟩

/-- Claim C7 (amended): `Batcher.commit` resets the write counter to zero
on a successful commit (first or second attempt) and on failure retries
the commit exactly once, immediately and with no delay, before giving up
and returning the error sentinel with the batch state unchanged. -/
theorem c7_commit_retry (b : Batcher) (db : Db) (rest : List Bool) :
    ((b.commit db (true :: rest)).state.total_writes = 0 ∧
      (b.commit db (true :: rest)).status = SUCCESS ∧
      (b.commit db (true :: rest)).attempts = 1) ∧
    ((b.commit db (false :: true :: rest)).state.total_writes = 0 ∧
      (b.commit db (false :: true :: rest)).status = SUCCESS ∧
      (b.commit db (false :: true :: rest)).attempts = 2 ∧
      (b.commit db (false :: true :: rest)).sleeps = 0) ∧
    ((b.commit db (false :: false :: rest)).status = ERROR ∧
      (b.commit db (false :: false :: rest)).attempts = 2 ∧
      (b.commit db (false :: false :: rest)).sleeps = 0 ∧
      (b.commit db (false :: false :: rest)).state = b ∧
      (b.commit db (false :: false :: rest)).db = db) :=
  ⟨⟨rfl, rfl, rfl⟩, ⟨rfl, rfl, rfl, rfl⟩, ⟨rfl, rfl, rfl, rfl, rfl⟩⟩

/-- Claim C10: every `Batcher` write call increments `total_writes` by
exactly one, even when rejected; a rejected call leaves the counter
unrestored, so every subsequent write call on that batcher is also
rejected; and a successful commit resets the counter to zero. -/
theorem c10_counter_sticky (b : Batcher) (op op2 : BatchOp) (db : Db) (rest : List Bool) :
    (b.doWrite op).state.total_writes = b.total_writes + 1 ∧
    ((b.doWrite op).raised = true → ((b.doWrite op).state.doWrite op2).raised = true) ∧
    (b.commit db (true :: rest)).state.total_writes = 0 := by
  refine ⟨doWrite_total b op, ?_, rfl⟩
  intro h
  rw [doWrite_raised_eq, decide_eq_true_eq] at h
  rw [doWrite_raised_eq, doWrite_total, decide_eq_true_eq]
  omega

/-- Claim C10 witness at a batcher that has already counted 500 writes. -/
theorem c10_counter_sticky_witness :
    ((({ total_writes := 500, ops := [] } : Batcher).doWrite
        (BatchOp.deleteOp ⟨0⟩)).state.doWrite (BatchOp.deleteOp ⟨0⟩)).raised = true :=
  (c10_counter_sticky ⟨500, []⟩ (BatchOp.deleteOp ⟨0⟩) (BatchOp.deleteOp ⟨0⟩) [] []).2.1
    (by decide)

lemma lookupField_cons (e : String × FieldValue) (rest : Payload) (k : String) :
    lookupField (e :: rest) k = if e.1 == k then some e.2 else lookupField rest k := by
  by_cases h : e.1 == k <;> simp [lookupField, List.find?_cons, h]

lemma lookupField_append (a b : Payload) (k : String) :
    lookupField (a ++ b) k = (lookupField a k).or (lookupField b k) := by
  induction a with
  | nil => simp [lookupField]
  | cons e rest ih =>
    rw [List.cons_append, lookupField_cons, lookupField_cons]
    by_cases h : e.1 == k
    · simp [h, Option.or]
    · simp [h, ih]

lemma lookupField_filter_keys (a b : Payload) (k : String) :
    lookupField (a.filter (fun e => (lookupField b e.1).isNone)) k =
      if (lookupField b k).isNone then lookupField a k else none := by
  induction a with
  | nil => simp [lookupField]
  | cons e rest ih =>
    obtain ⟨k1, v1⟩ := e
    rw [List.filter_cons]
    by_cases hk : k1 = k
    · subst hk
      by_cases hb : (lookupField b k1).isNone
      · simp [lookupField_cons, hb, ih]
      · simp [lookupField_cons, hb, ih]
    · by_cases hke : (lookupField b k1).isNone
      · simp [lookupField_cons, hk, hke, ih]
      · simp [lookupField_cons, hk, hke, ih]

lemma lookupField_merge (a b : Payload) (k : String) :
    lookupField (mergePayload a b) k = (lookupField b k).or (lookupField a k) := by
  show lookupField (a.filter (fun e => (lookupField b e.1).isNone) ++ b) k = _
  rw [lookupField_append, lookupField_filter_keys]
  cases h : lookupField b k with
  | none => simp [h]
  | some v => simp [h]

lemma lookupField_map_replace (p : Payload) (w : FieldValue) :
    lookupField (p.map (fun e => if e.1 == "dealroom_id" then (e.1, w) else e))
        "dealroom_id" = (lookupField p "dealroom_id").map (fun _ => w) := by
  induction p with
  | nil => rfl
  | cons e rest ih =>
    rw [List.map_cons]
    by_cases h : e.1 == "dealroom_id"
    · rw [if_pos h, lookupField_cons, lookupField_cons]
      simp only [h, if_pos]
      rfl
    · rw [if_neg h, lookupField_cons, lookupField_cons, if_neg h, if_neg h, ih]

lemma lookupField_intify_of_int (p : Payload) (n : Int)
    (h : lookupField p "dealroom_id" = some (FieldValue.int n)) :
    lookupField (intifyDealroomId p) "dealroom_id" = some (FieldValue.int n) := by
  unfold intifyDealroomId
  rw [h]
  show lookupField (p.map _) "dealroom_id" = _
  rw [lookupField_map_replace, h]
  rfl

/-- Claim C1: when the history lookup for the supplied key (by
`dealroom_id` or by `final_url`) finds two or more matching documents,
`set_history_doc_refs` returns the error sentinel and performs no write. -/
theorem c1_duplicate_match_no_write (env : Env) (db : List HistoryDoc) (payload : Payload)
    (k : String) (writeOk : Bool) (refs : HistoryRefs) (l : List DocRef)
    (hk : ¬ k = "")
    (hget : get_history_doc_refs env db k = .ok refs)
    (hdup : refs.dealroom_id = some l ∨ (refs.dealroom_id = none ∧ refs.final_url = some l))
    (hlen : 2 ≤ l.length) :
    set_history_doc_refs env db payload (some k) writeOk = ⟨ERROR, none⟩ := by
  have hsel : (selectRefs refs).1 = l.length := by
    rcases hdup with hd | ⟨hd, hf⟩
    · simp [selectRefs, hd]
    · have hpos : 0 < l.length := by omega
      simp [selectRefs, hd, hf, hpos]
  simp only [set_history_doc_refs, lookupHistoryRefs, if_neg hk, hget]
  rw [hsel, if_neg (by omega), if_neg (by omega)]

/-- Claim C1 witness: two documents share `dealroom_id = 5`; the upsert
keyed on `"5"` is rejected with no write. -/
theorem c1_duplicate_match_no_write_witness :
    get_history_doc_refs envA
        [⟨⟨1⟩, some 5, some "a.com", []⟩, ⟨⟨2⟩, some 5, none, []⟩] "5" =
      .ok ⟨some [⟨1⟩, ⟨2⟩], none, none⟩ ∧
    set_history_doc_refs envA [⟨⟨1⟩, some 5, some "a.com", []⟩, ⟨⟨2⟩, some 5, none, []⟩]
        [] (some "5") true = ⟨ERROR, none⟩ :=
  ⟨rfl, c1_duplicate_match_no_write envA _ [] "5" true ⟨some [⟨1⟩, ⟨2⟩], none, none⟩
    [⟨1⟩, ⟨2⟩] (by decide) rfl (Or.inl rfl) (by decide)⟩

/-- Claim C4 counterexample: the lookup finds no match and the payload
holds a valid url, but creation is refused because the supplied
`dealroom_id` fails validation: no document is created. -/
theorem c4_no_creation_on_invalid_id :
    (envA.extract "a.com").isSome = true ∧
    set_history_doc_refs envA []
        [("final_url", FieldValue.str "a.com"), ("dealroom_id", FieldValue.str "foobar")]
        none true = ⟨ERROR, none⟩ :=
  ⟨rfl, rfl⟩

/-- Claim C4 (amended): when the lookup finds no matching document, the
payload contains a valid url, and the payload's `dealroom_id`, when
supplied, passes validation, then (with the remote write succeeding) a
new history document is created carrying the merged payload, whose
`dealroom_id` defaults to `-1` when the payload does not supply one. -/
theorem c4_create_no_match (env : Env) (db : List HistoryDoc) (payload : Payload)
    (key : Option String) (refs : HistoryRefs) (u : String)
    (hl : lookupHistoryRefs env db key = .ok refs)
    (h0 : (selectRefs refs).1 = 0)
    (hfu : lookupField payload "final_url" = some (FieldValue.str u))
    (hvu : (env.extract u).isSome = true)
    (hdr : lookupField payload "dealroom_id" = none ∨
      ∃ d, lookupField payload "dealroom_id" = some d ∧ _validate_dealroomid d = true) :
    set_history_doc_refs env db payload key true =
      ⟨CREATED, some (WriteTarget.newDoc,
        intifyDealroomId (mergePayload defaultNewPayload payload))⟩ ∧
    (lookupField payload "dealroom_id" = none →
      lookupField (intifyDealroomId (mergePayload defaultNewPayload payload))
          "dealroom_id" = some (FieldValue.int (-1))) := by
  have hml : lookupField (mergePayload defaultNewPayload payload) "final_url" =
      some (FieldValue.str u) := by
    rw [lookupField_merge, hfu]; rfl
  have hmd : ∃ d, lookupField (mergePayload defaultNewPayload payload) "dealroom_id" =
      some d ∧ _validate_dealroomid d = true := by
    rcases hdr with h | ⟨d, hd, hvd⟩
    · refine ⟨FieldValue.int (-1), ?_, by decide⟩
      rw [lookupField_merge, h]
      rfl
    · refine ⟨d, ?_, hvd⟩
      rw [lookupField_merge, hd]
      rfl
  obtain ⟨d, hd, hvd⟩ := hmd
  have hval : _validate_new_history_doc_payload env
      (mergePayload defaultNewPayload payload) = true := by
    unfold _validate_new_history_doc_payload
    rw [hml, hd]
    simp [_validate_final_url, hvu, hvd]
  constructor
  · simp only [set_history_doc_refs, hl, h0, hval]
    rfl
  · intro h
    have : lookupField (mergePayload defaultNewPayload payload) "dealroom_id" =
        some (FieldValue.int (-1)) := by
      rw [lookupField_merge, h]
      rfl
    exact lookupField_intify_of_int _ _ this

/-- Claim C4 (amended) witness: creating from an empty database with a
valid url and no `dealroom_id` in the payload. -/
theorem c4_create_no_match_witness :
    set_history_doc_refs envA [] [("final_url", FieldValue.str "a.com")] none true =
      ⟨CREATED, some (WriteTarget.newDoc, intifyDealroomId
        (mergePayload defaultNewPayload [("final_url", FieldValue.str "a.com")]))⟩ ∧
    lookupField (intifyDealroomId (mergePayload defaultNewPayload
        [("final_url", FieldValue.str "a.com")])) "dealroom_id" =
      some (FieldValue.int (-1)) := by
  have h := c4_create_no_match envA [] [("final_url", FieldValue.str "a.com")] none
    ⟨none, none, none⟩ "a.com" rfl rfl rfl rfl (Or.inl rfl)
  exact ⟨h.1, h.2 rfl⟩

/-- Claim C5 counterexample: the lookup finds exactly one matching
document, but the payload fails update validation, so the matched
document is not written to at all. -/
theorem c5_no_write_on_invalid_payload :
    set_history_doc_refs envA [⟨⟨1⟩, some 5, none, []⟩]
        [("dealroom_id", FieldValue.str "foobar")] (some "5") true = ⟨ERROR, none⟩ :=
  rfl

/-- Claim C5 (amended): when the lookup finds exactly one document
matching the supplied key and the payload passes update validation, then
(with the remote write succeeding) that single matched document is the
one written to, and no new document is created. -/
theorem c5_single_match_updates (env : Env) (db : List HistoryDoc) (payload : Payload)
    (k : String) (refs : HistoryRefs) (r : DocRef)
    (hk : ¬ k = "")
    (hget : get_history_doc_refs env db k = .ok refs)
    (hone : selectRefs refs = (1, [r]))
    (hval : _validate_update_history_doc_payload env payload = true) :
    set_history_doc_refs env db payload (some k) true =
      ⟨UPDATED, some (WriteTarget.existing r, intifyDealroomId payload)⟩ := by
  simp only [set_history_doc_refs, lookupHistoryRefs, if_neg hk, hget, hone, hval]
  rfl

/-- Claim C5 (amended) witness: one document matches `dealroom_id = 5`
and a valid payload updates it in place. -/
theorem c5_single_match_updates_witness :
    set_history_doc_refs envA [⟨⟨1⟩, some 5, none, []⟩]
        [("dealroom_id", FieldValue.str "7")] (some "5") true =
      ⟨UPDATED, some (WriteTarget.existing ⟨1⟩,
        intifyDealroomId [("dealroom_id", FieldValue.str "7")])⟩ :=
  c5_single_match_updates envA [⟨⟨1⟩, some 5, none, []⟩]
    [("dealroom_id", FieldValue.str "7")] "5" ⟨some [⟨1⟩], none, none⟩ ⟨1⟩
    (by decide) rfl rfl rfl

lemma commitGo_status (outcomes : List Bool) : ∀ (b : Batcher) (db : Db) (retry : Bool),
    (Batcher.commitGo b db retry outcomes).status = SUCCESS ∨
    (Batcher.commitGo b db retry outcomes).status = ERROR := by
  induction outcomes with
  | nil => intro b db retry; right; rfl
  | cons a rest ih =>
    intro b db retry
    cases a
    · cases retry
      · right; rfl
      · simpa [Batcher.commitGo] using ih b db false
    · left; rfl

lemma set_history_status (env : Env) (db : List HistoryDoc) (payload : Payload)
    (key : Option String) (wk : Bool) :
    (set_history_doc_refs env db payload key wk).status = ERROR ∨
    (set_history_doc_refs env db payload key wk).status = CREATED ∨
    (set_history_doc_refs env db payload key wk).status = UPDATED := by
  unfold set_history_doc_refs
  cases lookupHistoryRefs env db key with
  | error e => left; rfl
  | ok refs =>
    simp only []
    split_ifs <;> simp

/-- Claim C8 counterexample: a public operation that raises: the 501st
write call on a `Batcher` raises `InvalidArgument` instead of returning
the integer sentinel. -/
theorem c8_batcher_write_raises :
    (Batcher.set ⟨500, []⟩ ⟨0⟩ []).raised = true :=
  rfl

/-- Claim C8 (amended): the facade operations get, set, update, stream
and the history upsert of `__init__.py`, and `Batcher.commit`, surface
every failure as the integer sentinels only.  Two public operations do
raise: a `Batcher` write call past the per-batch limit raises
`InvalidArgument`, and connect (`new_connection`) on any connection
failure lets an `AttributeError` from its own logging helper escape to
the caller instead of returning the sentinel. -/
theorem c8_sentinel_discipline (α : Type) (a1 a2 : Outcome α) (b1 b2 : Outcome Unit)
    (env : Env) (db : List HistoryDoc) (payload : Payload) (key : Option String)
    (wk : Bool) (b : Batcher) (dbb : Db) (outcomes : List Bool) (op : BatchOp) :
    ((fs_get a1 a2).result = .inr ERROR ∨ ∃ v, (fs_get a1 a2).result = .inl v) ∧
    ((fs_stream a1 a2).result = .inr ERROR ∨ ∃ v, (fs_stream a1 a2).result = .inl v) ∧
    ((new_connection (Outcome.fail : Outcome α)).result = .error "AttributeError" ∧
      ∀ v : α, (new_connection (Outcome.ok v)).result = .ok (.inl v)) ∧
    ((fs_set b1 b2).result = SUCCESS ∨ (fs_set b1 b2).result = ERROR) ∧
    ((fs_update b1 b2).result = SUCCESS ∨ (fs_update b1 b2).result = ERROR) ∧
    ((set_history_doc_refs env db payload key wk).status = ERROR ∨
      (set_history_doc_refs env db payload key wk).status = CREATED ∨
      (set_history_doc_refs env db payload key wk).status = UPDATED) ∧
    ((b.commit dbb outcomes).status = SUCCESS ∨ (b.commit dbb outcomes).status = ERROR) ∧
    (MAX_WRITES_PER_BATCH ≤ b.total_writes → (b.doWrite op).raised = true) := by
  refine ⟨?_, ?_, ?_, ?_, ?_, set_history_status env db payload key wk,
    commitGo_status outcomes b dbb true, ?_⟩
  · cases a1 <;> cases a2 <;> first | (left; rfl) | (right; exact ⟨_, rfl⟩)
  · cases a1 <;> cases a2 <;> first | (left; rfl) | (right; exact ⟨_, rfl⟩)
  · exact ⟨rfl, fun v => rfl⟩
  · cases b1 <;> cases b2 <;> first | (left; rfl) | (right; rfl)
  · cases b1 <;> cases b2 <;> first | (left; rfl) | (right; rfl)
  · intro h
    rw [doWrite_raised_eq, decide_eq_true_eq]
    exact h

/-- Claim C8 (amended) witness at concrete inputs. -/
theorem c8_sentinel_discipline_witness :
    ((⟨500, []⟩ : Batcher).doWrite (BatchOp.createOp ⟨0⟩ [])).raised = true :=
  (c8_sentinel_discipline Unit Outcome.fail Outcome.fail Outcome.fail Outcome.fail
    envA [] [] none true ⟨500, []⟩ [] [] (BatchOp.createOp ⟨0⟩ [])).2.2.2.2.2.2.2
    (by decide)

/-- Claim C9 counterexample: a code path that deletes a document:
`Batcher.delete` followed by a successful commit removes the document
from the database. -/
theorem c9_batcher_delete_removes :
    (⟨1⟩, ([] : Payload)) ∈ ([(⟨1⟩, [])] : Db) ∧
    ((Batcher.init.delete ⟨1⟩).state.commit [(⟨1⟩, [])] [true]).status = SUCCESS ∧
    ((Batcher.init.delete ⟨1⟩).state.commit [(⟨1⟩, [])] [true]).db = [] :=
  ⟨by simp, rfl, rfl⟩

/-- Claim C9 (amended): the history upsert never deletes a document —
every document reference present before `set_history_doc_refs` is still
present afterwards — while the `Batcher` write interface does expose a
delete operation that removes a document on commit. -/
theorem c9_upsert_never_deletes :
    (∀ (env : Env) (db : List HistoryDoc) (payload : Payload) (key : Option String)
      (wk : Bool) (fresh : DocRef) (r : DocRef),
      r ∈ db.map (fun d => d.ref) →
      r ∈ historyRefsAfter db fresh (set_history_doc_refs env db payload key wk).write) ∧
    ((Batcher.init.delete ⟨1⟩).state.commit [(⟨1⟩, [])] [true]).db = [] := by
  constructor
  · intro env db payload key wk fresh r hr
    cases hw : (set_history_doc_refs env db payload key wk).write with
    | none => simpa [historyRefsAfter] using hr
    | some tp =>
      obtain ⟨t, p⟩ := tp
      cases t with
      | newDoc =>
        simp only [historyRefsAfter]
        exact List.mem_append.mpr (Or.inl hr)
      | existing r2 => simpa [historyRefsAfter] using hr
  · rfl

/-- Claim C9 (amended) witness: the matched document survives an update
in place. -/
theorem c9_upsert_never_deletes_witness :
    (⟨1⟩ : DocRef) ∈ historyRefsAfter [⟨⟨1⟩, some 5, none, []⟩] ⟨2⟩
      (set_history_doc_refs envA [⟨⟨1⟩, some 5, none, []⟩] [] (some "5") true).write :=
  c9_upsert_never_deletes.1 envA [⟨⟨1⟩, some 5, none, []⟩] [] (some "5") true ⟨2⟩ ⟨1⟩
    (by simp)

end FirestoreConnector
